import Mathlib

/-!
Shallow embedding of `src/project.py` (Traffic-Sim-360): traffic-light state
machine, sensor telemetry, controller decision loop, producer loop and
receiver (server) loop. Randomness (`random.randint(0, MAX_VEHICLES)`) is
modelled by an explicit stream of draws `counts : Nat → Nat` (a hypothesis
`counts i ≤ MAX_VEHICLES` models the range of `randint` where it matters);
wall-clock timestamps are modelled by an abstract clock value passed to each
operation; the append-only JSON log file is modelled as an explicit
`List TrafficEvent` threaded through the functions that append to it.
-/

set_option autoImplicit false

namespace TrafficSim

/-! ### Constants (project.py lines 15-20) -/

def MAX_VEHICLES : Nat := 5
def RED_LIGHT_DURATION : Nat := 10
def GREEN_LIGHT_DURATION : Nat := 15
def YELLOW_LIGHT_DURATION : Nat := 5

/-! ### Traffic light state machine (project.py lines 22-71) -/

/-- The three light states (the Python code stores them as the strings
`"RED"`, `"GREEN"`, `"YELLOW"`). -/
inductive LightState where
  | RED
  | GREEN
  | YELLOW
deriving DecidableEq, Repr

/-- One record appended to the JSON log file by `log_traffic_data`
(project.py lines 50-63). -/
structure TrafficEvent where
  intersection : String
  state : LightState
  timestamp : Nat
  vehicle_count : Nat
deriving DecidableEq, Repr

/-- `TrafficLight.__init__` state (project.py lines 24-30). -/
structure TrafficLight where
  state : LightState
  name : String
  green_duration : Nat
  red_duration : Nat
  yellow_duration : Nat
  vehicle_count_history : List Nat
deriving DecidableEq, Repr

/-- `TrafficLight.__init__` (project.py lines 24-30): initial state RED,
empty history, durations from the constants. -/
def TrafficLight.init (intersection_name : String) : TrafficLight :=
  { state := LightState.RED
    name := intersection_name
    green_duration := GREEN_LIGHT_DURATION
    red_duration := RED_LIGHT_DURATION
    yellow_duration := YELLOW_LIGHT_DURATION
    vehicle_count_history := [] }

/-- `log_traffic_data` (project.py lines 50-63): builds the log entry for the
light's current state; `vehicle_count` is `len(self.vehicle_count_history)`. -/
def TrafficLight.log_traffic_data (l : TrafficLight) (ts : Nat) : TrafficEvent :=
  { intersection := l.name
    state := l.state
    timestamp := ts
    vehicle_count := l.vehicle_count_history.length }

/-- `switch_to_green` (project.py lines 32-36): set state, then append one
log record. Returns the updated light and the extended log. -/
def TrafficLight.switch_to_green (l : TrafficLight) (ts : Nat)
    (log : List TrafficEvent) : TrafficLight × List TrafficEvent :=
  let l2 := { l with state := LightState.GREEN }
  (l2, log ++ [l2.log_traffic_data ts])

/-- `switch_to_red` (project.py lines 38-42). -/
def TrafficLight.switch_to_red (l : TrafficLight) (ts : Nat)
    (log : List TrafficEvent) : TrafficLight × List TrafficEvent :=
  let l2 := { l with state := LightState.RED }
  (l2, log ++ [l2.log_traffic_data ts])

/-- `switch_to_yellow` (project.py lines 44-48). -/
def TrafficLight.switch_to_yellow (l : TrafficLight) (ts : Nat)
    (log : List TrafficEvent) : TrafficLight × List TrafficEvent :=
  let l2 := { l with state := LightState.YELLOW }
  (l2, log ++ [l2.log_traffic_data ts])

/-- `update_vehicle_count` (project.py lines 65-67): append to history. -/
def TrafficLight.update_vehicle_count (l : TrafficLight) (count : Nat) :
    TrafficLight :=
  { l with vehicle_count_history := l.vehicle_count_history ++ [count] }

/-- `get_vehicle_count` (project.py lines 69-71): length of the history. -/
def TrafficLight.get_vehicle_count (l : TrafficLight) : Nat :=
  l.vehicle_count_history.length

/-! ### Sensor (project.py lines 74-84) -/

/-- The wire payload `{'intersection': ..., 'vehicle_count': ...}` built by
`generate_sensor_data` (project.py line 83). -/
structure TelemetryRecord where
  intersection : String
  vehicle_count : Nat
deriving DecidableEq, Repr

/-- `Sensor.__init__` state (project.py lines 76-78). -/
structure Sensor where
  intersection_name : String
  vehicle_count : Nat
deriving DecidableEq, Repr

/-- `Sensor.__init__` (project.py lines 76-78): `vehicle_count = 0`. -/
def Sensor.init (intersection_name : String) : Sensor :=
  { intersection_name := intersection_name, vehicle_count := 0 }

/-- `generate_sensor_data` (project.py lines 80-84): stores the random draw
in `self.vehicle_count` and returns the payload. `draw` stands for
`random.randint(0, MAX_VEHICLES)`. Returns the updated sensor and the
record. -/
def Sensor.generate_sensor_data (s : Sensor) (draw : Nat) :
    Sensor × TelemetryRecord :=
  let s2 := { s with vehicle_count := draw }
  (s2, { intersection := s.intersection_name, vehicle_count := draw })

/-! ### Controller (project.py lines 87-125) -/

/-- `TrafficController.__init__` state (project.py lines 89-96). The unused
`active_intersections = {}` field is omitted (never read or written). -/
structure TrafficController where
  intersections : List (String × TrafficLight)
  iterations : Nat
deriving DecidableEq, Repr

/-- `TrafficController.__init__` (project.py lines 89-96): three lights,
insertion order "Intersection 1", "Intersection 2", "Intersection 3";
`iterations = 10`. -/
def TrafficController.init : TrafficController :=
  { intersections :=
      [("Intersection 1", TrafficLight.init "Intersection 1"),
       ("Intersection 2", TrafficLight.init "Intersection 2"),
       ("Intersection 3", TrafficLight.init "Intersection 3")]
    iterations := 10 }

/-- The loop body of `manage_traffic` for one intersection (project.py lines
104-117): record the draw in the history, then branch on the draw to switch
the light (each branch also sleeps; sleeping has no modelled effect). `ts`
is the abstract timestamp passed to the log append. -/
def manage_step (traffic_light : TrafficLight) (vehicle_count ts : Nat)
    (log : List TrafficEvent) : TrafficLight × List TrafficEvent :=
  let tl := traffic_light.update_vehicle_count vehicle_count
  if vehicle_count > 60 then
    tl.switch_to_green ts log
  else if vehicle_count = 0 then
    tl.switch_to_red ts log
  else
    tl.switch_to_yellow ts log

/-- Python dict assignment `intersection_data[name] = v` (project.py line
120) on an insertion-ordered association list. -/
def assocSet (m : List (String × Nat)) (k : String) (v : Nat) :
    List (String × Nat) :=
  match m with
  | [] => [(k, v)]
  | (k2, v2) :: rest =>
      if k2 = k then (k, v) :: rest else (k2, v2) :: assocSet rest k v

/-- The state threaded through `manage_traffic`'s loops: the lights map, the
number of decision evaluations performed so far (`idx`, also the index of the
next random draw and the abstract timestamp), the log, and
`intersection_data`. -/
structure LoopState where
  lights : List (String × TrafficLight)
  idx : Nat
  log : List TrafficEvent
  data : List (String × Nat)
deriving Repr

/-- The inner `for` loop of `manage_traffic` (project.py lines 103-120): one
decision evaluation per intersection, in map order. The already-processed
lights are accumulated in `acc` (the Python code mutates each light in place
while the dict's keys and order never change). -/
def manageInner (counts : Nat → Nat) :
    List (String × TrafficLight) → Nat → List TrafficEvent →
    List (String × Nat) → List (String × TrafficLight) → LoopState
  | [], idx, log, data, acc => ⟨acc, idx, log, data⟩
  | (name, tl) :: rest, idx, log, data, acc =>
      let v := counts idx
      let p := manage_step tl v idx log
      manageInner counts rest (idx + 1) p.2 (assocSet data name v)
        (acc ++ [(name, p.1)])

/-- The outer `while iteration_count < self.iterations` loop of
`manage_traffic` (project.py lines 102-123), with the remaining iteration
count as fuel. -/
def manageLoop (counts : Nat → Nat) : Nat → LoopState → LoopState
  | 0, s => s
  | n + 1, ⟨lights, idx, log, data⟩ =>
      manageLoop counts n (manageInner counts lights idx log data [])

/-- `manage_traffic` (project.py lines 98-125): runs `iterations` passes over
the intersection map; `.data` is the returned `intersection_data`, `.lights`
the mutated lights, `.log` the records appended to the log file, `.idx` the
number of decision evaluations (= random draws) performed. -/
def TrafficController.manage_traffic (c : TrafficController)
    (counts : Nat → Nat) : LoopState :=
  manageLoop counts c.iterations ⟨c.intersections, 0, [], []⟩

/-! ### Transition sequences on a single light (for the event-log count) -/

/-- One of the three `switch_to_*` operations. -/
inductive Transition where
  | toGreen
  | toRed
  | toYellow
deriving DecidableEq, Repr

/-- The state a transition sets (project.py lines 34, 40, 46). -/
def Transition.targetState : Transition → LightState
  | Transition.toGreen => LightState.GREEN
  | Transition.toRed => LightState.RED
  | Transition.toYellow => LightState.YELLOW

/-- Dispatch a transition to the corresponding `switch_to_*` method. -/
def applyTransition (l : TrafficLight) (t : Transition) (ts : Nat)
    (log : List TrafficEvent) : TrafficLight × List TrafficEvent :=
  match t with
  | Transition.toGreen => l.switch_to_green ts log
  | Transition.toRed => l.switch_to_red ts log
  | Transition.toYellow => l.switch_to_yellow ts log

/-- Apply a sequence of transitions (each with its timestamp) to one light,
threading the log. -/
def applyTransitions (l : TrafficLight) (log : List TrafficEvent) :
    List (Transition × Nat) → TrafficLight × List TrafficEvent
  | [] => (l, log)
  | (t, ts) :: rest =>
      let p := applyTransition l t ts log
      applyTransitions p.1 p.2 rest

/-! ### TrafficSystem: producer loop (project.py lines 128-177) -/

/-- `TrafficSystem.__init__` state (project.py lines 129-145): three sensors,
its own controller, and the `network_traffic` dictionary (`timestamps` and
`vehicle_counts` lists). `sends` counts the `send_data_to_server` calls made
(the fire-and-forget network writes, project.py lines 162-164). The
`stop_event` is modelled by the number of producer cycles run before the
loop observes the stop signal. -/
structure TrafficSystem where
  sensor_1 : Sensor
  sensor_2 : Sensor
  sensor_3 : Sensor
  controller : TrafficController
  network_timestamps : List Nat
  network_vehicle_counts : List Nat
  sends : Nat
deriving DecidableEq, Repr

/-- `TrafficSystem.__init__` (project.py lines 129-145). -/
def TrafficSystem.init : TrafficSystem :=
  { sensor_1 := Sensor.init "Intersection 1"
    sensor_2 := Sensor.init "Intersection 2"
    sensor_3 := Sensor.init "Intersection 3"
    controller := TrafficController.init
    network_timestamps := []
    network_vehicle_counts := []
    sends := 0 }

/-- One pass of the `start_sensors` loop body (project.py lines 149-166):
sample the three sensors, append ONE timestamp and THREE vehicle counts to
`network_traffic`, then send the three records to the server. `now` is the
abstract wall clock; `d1 d2 d3` are the three random draws of the cycle. -/
def TrafficSystem.sensorCycle (sys : TrafficSystem) (now d1 d2 d3 : Nat) :
    TrafficSystem :=
  let p1 := sys.sensor_1.generate_sensor_data d1
  let p2 := sys.sensor_2.generate_sensor_data d2
  let p3 := sys.sensor_3.generate_sensor_data d3
  { sys with
    sensor_1 := p1.1
    sensor_2 := p2.1
    sensor_3 := p3.1
    network_timestamps := sys.network_timestamps ++ [now]
    network_vehicle_counts :=
      sys.network_vehicle_counts ++
        [p1.2.vehicle_count, p2.2.vehicle_count, p3.2.vehicle_count]
    sends := sys.sends + 3 }

/-- The `start_sensors` loop (project.py lines 147-166) starting at cycle
number `c`, running `k` further cycles before the stop event is observed.
Cycle `c` uses clock value `clock c` and draws `draws (3*c)`,
`draws (3*c+1)`, `draws (3*c+2)`. -/
def TrafficSystem.sensorsLoop (clock draws : Nat → Nat) (sys : TrafficSystem)
    (c : Nat) : Nat → TrafficSystem
  | 0 => sys
  | k + 1 =>
      TrafficSystem.sensorsLoop clock draws
        (sys.sensorCycle (clock c) (draws (3 * c)) (draws (3 * c + 1))
          (draws (3 * c + 2)))
        (c + 1) k

/-- `start_sensors` (project.py lines 147-166) run for `k` cycles. -/
def TrafficSystem.start_sensors (sys : TrafficSystem)
    (clock draws : Nat → Nat) (k : Nat) : TrafficSystem :=
  TrafficSystem.sensorsLoop clock draws sys 0 k

/-! ### Server: receiver loop (project.py lines 179-217) -/

/-- What one accepted connection yields at the receiver (project.py lines
199-204): `recv` returns an empty string, `recv` raises, `json.loads` or the
key lookups raise, or a record decodes successfully. -/
inductive ConnData where
  | empty
  | recvError
  | malformed
  | ok (rec : TelemetryRecord)
deriving DecidableEq, Repr

/-- One iteration of the receiver loop either times out on `accept`
(project.py line 210) or accepts a connection carrying `ConnData`. -/
inductive ServerEvent where
  | timeout
  | conn (d : ConnData)
deriving DecidableEq, Repr

/-- State of the `start_server` loop (project.py lines 195-215):
`clientBound` records whether the local variable `client_socket` has ever
been assigned (it is only assigned by a successful `accept`); `drawIdx` is
the index of the next random draw consumed by a receiver-triggered
`manage_traffic`; `evals`, `cycles`, `errors` count decision evaluations,
`manage_traffic` invocations, and logged errors; `crashed` records that an
exception escaped the loop (terminating the receiver thread). -/
structure ServerLoopState where
  controller : TrafficController
  drawIdx : Nat
  clientBound : Bool
  evals : Nat
  cycles : Nat
  errors : Nat
  crashed : Bool
  log : List TrafficEvent
deriving Repr

/-- The loop state at entry of the `while` loop (project.py line 195). -/
def initLoopState (c : TrafficController) : ServerLoopState :=
  { controller := c
    drawIdx := 0
    clientBound := false
    evals := 0
    cycles := 0
    errors := 0
    crashed := false
    log := [] }

/-- Observable outcome of one receiver-loop iteration. `connAccepted`: a
connection was accepted this iteration; `connClosed`: the `finally` block
closed `client_socket`; `continues`: control reaches the next loop
iteration (false exactly when an exception escapes the iteration). -/
structure IterTrace where
  evalsThisIter : Nat
  cyclesThisIter : Nat
  errorLogged : Bool
  connAccepted : Bool
  connClosed : Bool
  continues : Bool
deriving DecidableEq, Repr

/-- One iteration of the `start_server` loop (project.py lines 195-215).

On `timeout`: `accept` raises `socket.timeout`, the `except` clause runs
`continue`, but the `finally` block still executes `client_socket.close()`.
If `client_socket` was never assigned (no connection has ever been
accepted), that raises `NameError`, which is outside the `try` and escapes
the loop: the receiver thread dies. Otherwise it closes the previous,
already-closed socket (a no-op) and the loop continues.

On a connection: empty data skips processing; a `recv` or decode error is
caught by `except Exception`, logged, and the connection closed; a decoded
record triggers `self.traffic_controller.manage_traffic()` — a full run over
the server's own intersection set — before the `finally` close. -/
def serverIter (draws : Nat → Nat) (st : ServerLoopState) (ev : ServerEvent) :
    ServerLoopState × IterTrace :=
  match ev with
  | ServerEvent.timeout =>
      if st.clientBound then
        (st, ⟨0, 0, false, false, true, true⟩)
      else
        ({ st with crashed := true }, ⟨0, 0, false, false, false, false⟩)
  | ServerEvent.conn d =>
      match d with
      | ConnData.empty =>
          ({ st with clientBound := true }, ⟨0, 0, false, true, true, true⟩)
      | ConnData.recvError =>
          ({ st with clientBound := true, errors := st.errors + 1 },
           ⟨0, 0, true, true, true, true⟩)
      | ConnData.malformed =>
          ({ st with clientBound := true, errors := st.errors + 1 },
           ⟨0, 0, true, true, true, true⟩)
      | ConnData.ok _ =>
          let r := st.controller.manage_traffic
            (fun i => draws (st.drawIdx + i))
          ({ st with
              clientBound := true
              controller := { st.controller with intersections := r.lights }
              drawIdx := st.drawIdx + r.idx
              evals := st.evals + r.idx
              cycles := st.cycles + 1
              log := st.log ++ r.log },
           ⟨r.idx, 1, false, true, true, true⟩)

/-- The receiver loop over a finite schedule of iteration events (the list
ends when the stop event is observed); the loop stops early if an iteration
does not continue (exception escaped). -/
def serverLoop (draws : Nat → Nat) (st : ServerLoopState) :
    List ServerEvent → ServerLoopState
  | [] => st
  | ev :: rest =>
      let p := serverIter draws st ev
      if p.2.continues then serverLoop draws p.1 rest else p.1

/-- `Server.__init__` state (project.py lines 180-182): the server builds its
OWN `TrafficController` (with its own three lights). -/
structure Server where
  traffic_controller : TrafficController
deriving DecidableEq, Repr

/-- `Server.__init__` (project.py lines 180-182). -/
def Server.init : Server :=
  { traffic_controller := TrafficController.init }

/-- `start_server` (project.py lines 184-217). `bindOk` is whether
`bind`/`listen` succeed; on failure the method prints and returns (the loop
never runs). Returns the final loop state and a flag marking bind failure. -/
def Server.start_server (srv : Server) (bindOk : Bool)
    (events : List ServerEvent) (draws : Nat → Nat) :
    ServerLoopState × Bool :=
  if bindOk then
    (serverLoop draws (initLoopState srv.traffic_controller) events, false)
  else
    (initLoopState srv.traffic_controller, true)

/-! ### run_traffic_system (project.py lines 221-247) -/

/-- The observable outcome of `run_traffic_system`: the final producer
state, the final receiver loop state (with its bind-failure flag), and the
result of the main thread's direct `manage_traffic` call on the traffic
system's controller. -/
structure RunResult where
  system : TrafficSystem
  serverState : ServerLoopState
  bindFailed : Bool
  main : LoopState
deriving Repr

/-- `run_traffic_system` (project.py lines 221-247): the sensor thread runs
`cycles` producer cycles, the server thread runs its bind attempt and (on
success) its loop over `events`, and the main thread runs
`traffic_system.controller.manage_traffic()`. Each thread's random draws are
an independent stream (in Python they share one global generator; which
draws each thread gets is scheduling-dependent, so the streams are
parameters). -/
def run_traffic_system (bindOk : Bool) (events : List ServerEvent)
    (cycles : Nat) (clock sensorDraws serverDraws mainDraws : Nat → Nat) :
    RunResult :=
  let sys := TrafficSystem.init
  let sysFinal := sys.start_sensors clock sensorDraws cycles
  let srv := Server.init
  let p := srv.start_server bindOk events serverDraws
  let mainRes := sys.controller.manage_traffic mainDraws
  { system := sysFinal
    serverState := p.1
    bindFailed := p.2
    main := mainRes }

/-! ### Characterization lemmas -/

/-- The state picked by the branch of `manage_traffic` at project.py lines
109-117, as a function of the drawn vehicle count. -/
def decideState (v : Nat) : LightState :=
  if v > 60 then LightState.GREEN
  else if v = 0 then LightState.RED
  else LightState.YELLOW

theorem manage_step_eq (tl : TrafficLight) (v ts : Nat)
    (log : List TrafficEvent) :
    manage_step tl v ts log =
      ({ tl with
          state := decideState v
          vehicle_count_history := tl.vehicle_count_history ++ [v] },
       log ++ [{ intersection := tl.name
                 state := decideState v
                 timestamp := ts
                 vehicle_count := tl.vehicle_count_history.length + 1 }]) := by
  unfold manage_step decideState TrafficLight.update_vehicle_count
    TrafficLight.switch_to_green TrafficLight.switch_to_red
    TrafficLight.switch_to_yellow TrafficLight.log_traffic_data
  split_ifs <;> simp

theorem decideState_of_le (v : Nat) (h : v ≤ 60) :
    decideState v = LightState.RED ∨ decideState v = LightState.YELLOW := by
  unfold decideState
  split_ifs with h1 h2
  · omega
  · exact Or.inl rfl
  · exact Or.inr rfl

/-- Proof-side characterization of how `intersection_data` evolves during
one inner pass: only the intersection names and the draw indices matter. -/
def dataFold (counts : Nat → Nat) :
    List String → Nat → List (String × Nat) → List (String × Nat)
  | [], _, data => data
  | name :: rest, idx, data =>
      dataFold counts rest (idx + 1) (assocSet data name (counts idx))

theorem manageInner_idx (counts : Nat → Nat) :
    ∀ (lights : List (String × TrafficLight)) (idx : Nat)
      (log : List TrafficEvent) (data : List (String × Nat))
      (acc : List (String × TrafficLight)),
      (manageInner counts lights idx log data acc).idx = idx + lights.length
  | [], idx, log, data, acc => rfl
  | (name, tl) :: rest, idx, log, data, acc => by
      simp only [manageInner, List.length_cons]
      rw [manageInner_idx counts rest]
      omega

theorem manageInner_lights_map (counts : Nat → Nat) :
    ∀ (lights : List (String × TrafficLight)) (idx : Nat)
      (log : List TrafficEvent) (data : List (String × Nat))
      (acc : List (String × TrafficLight)),
      (manageInner counts lights idx log data acc).lights.map Prod.fst =
        acc.map Prod.fst ++ lights.map Prod.fst
  | [], idx, log, data, acc => by simp [manageInner]
  | (name, tl) :: rest, idx, log, data, acc => by
      simp only [manageInner]
      rw [manageInner_lights_map counts rest]
      simp

theorem manageInner_lights_length (counts : Nat → Nat)
    (lights : List (String × TrafficLight)) (idx : Nat)
    (log : List TrafficEvent) (data : List (String × Nat))
    (acc : List (String × TrafficLight)) :
    (manageInner counts lights idx log data acc).lights.length =
      acc.length + lights.length := by
  have h := congrArg List.length
    (manageInner_lights_map counts lights idx log data acc)
  simpa using h

theorem manageInner_data (counts : Nat → Nat) :
    ∀ (lights : List (String × TrafficLight)) (idx : Nat)
      (log : List TrafficEvent) (data : List (String × Nat))
      (acc : List (String × TrafficLight)),
      (manageInner counts lights idx log data acc).data =
        dataFold counts (lights.map Prod.fst) idx data
  | [], idx, log, data, acc => rfl
  | (name, tl) :: rest, idx, log, data, acc => by
      simp only [manageInner, List.map_cons, dataFold]
      rw [manageInner_data counts rest]

theorem manageInner_lights_pred (counts : Nat → Nat)
    (P : LightState → Prop) :
    ∀ (lights : List (String × TrafficLight)) (idx : Nat)
      (log : List TrafficEvent) (data : List (String × Nat))
      (acc : List (String × TrafficLight)),
      (∀ p ∈ acc, P p.2.state) → (∀ i, P (decideState (counts i))) →
      ∀ p ∈ (manageInner counts lights idx log data acc).lights, P p.2.state
  | [], idx, log, data, acc => by
      intro hacc _ p hp
      exact hacc p hp
  | (name, tl) :: rest, idx, log, data, acc => by
      intro hacc hdec p hp
      simp only [manageInner, manage_step_eq] at hp
      refine manageInner_lights_pred counts P rest _ _ _ _ ?_ hdec p hp
      intro q hq
      rcases List.mem_append.mp hq with hq | hq
      · exact hacc q hq
      · rcases List.mem_singleton.mp hq with rfl
        exact hdec idx

theorem manageInner_log_pred (counts : Nat → Nat)
    (P : LightState → Prop) :
    ∀ (lights : List (String × TrafficLight)) (idx : Nat)
      (log : List TrafficEvent) (data : List (String × Nat))
      (acc : List (String × TrafficLight)),
      (∀ e ∈ log, P e.state) → (∀ i, P (decideState (counts i))) →
      ∀ e ∈ (manageInner counts lights idx log data acc).log, P e.state
  | [], idx, log, data, acc => by
      intro hlog _ e he
      exact hlog e he
  | (name, tl) :: rest, idx, log, data, acc => by
      intro hlog hdec e he
      simp only [manageInner, manage_step_eq] at he
      refine manageInner_log_pred counts P rest _ _ _ _ ?_ hdec e he
      intro f hf
      rcases List.mem_append.mp hf with hf | hf
      · exact hlog f hf
      · rcases List.mem_singleton.mp hf with rfl
        exact hdec idx

theorem manageLoop_unfold (counts : Nat → Nat) (n : Nat) (s : LoopState) :
    manageLoop counts (n + 1) s =
      manageLoop counts n (manageInner counts s.lights s.idx s.log s.data []) := by
  cases s
  rfl

theorem manageLoop_idx (counts : Nat → Nat) :
    ∀ (n : Nat) (s : LoopState),
      (manageLoop counts n s).idx = s.idx + n * s.lights.length
  | 0, s => by simp [manageLoop]
  | n + 1, s => by
      rw [manageLoop_unfold, manageLoop_idx counts n]
      simp only [manageInner_idx, manageInner_lights_length,
        List.length_nil]
      ring

theorem manageLoop_lights_map (counts : Nat → Nat) :
    ∀ (n : Nat) (s : LoopState),
      (manageLoop counts n s).lights.map Prod.fst = s.lights.map Prod.fst
  | 0, s => by simp [manageLoop]
  | n + 1, s => by
      rw [manageLoop_unfold, manageLoop_lights_map counts n]
      simp [manageInner_lights_map]

theorem manageLoop_pred (counts : Nat → Nat) (P : LightState → Prop)
    (hdec : ∀ i, P (decideState (counts i))) :
    ∀ (n : Nat) (s : LoopState),
      (∀ p ∈ s.lights, P p.2.state) → (∀ e ∈ s.log, P e.state) →
      (∀ p ∈ (manageLoop counts n s).lights, P p.2.state) ∧
        (∀ e ∈ (manageLoop counts n s).log, P e.state)
  | 0, s => by
      intro hl he
      exact ⟨hl, he⟩
  | n + 1, s => by
      intro hl he
      rw [manageLoop_unfold]
      refine manageLoop_pred counts P hdec n _ ?_ ?_
      · exact manageInner_lights_pred counts P s.lights s.idx s.log s.data []
          (by intro p hp; simp at hp) hdec
      · exact manageInner_log_pred counts P s.lights s.idx s.log s.data []
          he hdec

theorem manage_traffic_idx (c : TrafficController) (counts : Nat → Nat) :
    (c.manage_traffic counts).idx = c.iterations * c.intersections.length := by
  unfold TrafficController.manage_traffic
  rw [manageLoop_idx]
  simp

/-- Shape of `intersection_data` relevant to the default controller: empty,
or exactly the three default keys in insertion order. -/
def dataShape3 (data : List (String × Nat)) : Prop :=
  data = [] ∨ ∃ a b c, data =
    [("Intersection 1", a), ("Intersection 2", b), ("Intersection 3", c)]

theorem dataFold_concrete3 (counts : Nat → Nat) (idx : Nat)
    (data : List (String × Nat)) (h : dataShape3 data) :
    dataFold counts
      ["Intersection 1", "Intersection 2", "Intersection 3"] idx data =
      [("Intersection 1", counts idx), ("Intersection 2", counts (idx + 1)),
       ("Intersection 3", counts (idx + 2))] := by
  rcases h with rfl | ⟨a, b, c, rfl⟩ <;> simp [dataFold, assocSet]

theorem manageLoop_data_concrete (counts : Nat → Nat) :
    ∀ (n : Nat) (s : LoopState),
      s.lights.map Prod.fst =
        ["Intersection 1", "Intersection 2", "Intersection 3"] →
      dataShape3 s.data →
      (manageLoop counts (n + 1) s).data =
        [("Intersection 1", counts (s.idx + 3 * n)),
         ("Intersection 2", counts (s.idx + 3 * n + 1)),
         ("Intersection 3", counts (s.idx + 3 * n + 2))]
  | 0, s => by
      intro hmap hdata
      rw [manageLoop_unfold]
      simp only [manageLoop, manageInner_data, hmap,
        dataFold_concrete3 counts s.idx s.data hdata]
      norm_num
  | n + 1, s => by
      intro hmap hdata
      have hlen : s.lights.length = 3 := by
        have := congrArg List.length hmap
        simpa using this
      rw [manageLoop_unfold]
      have hmap2 : (manageInner counts s.lights s.idx s.log s.data []).lights.map
          Prod.fst = ["Intersection 1", "Intersection 2", "Intersection 3"] := by
        rw [manageInner_lights_map]
        simpa using hmap
      have hdata2 : dataShape3
          (manageInner counts s.lights s.idx s.log s.data []).data := by
        rw [manageInner_data, hmap, dataFold_concrete3 counts s.idx s.data hdata]
        exact Or.inr ⟨_, _, _, rfl⟩
      rw [manageLoop_data_concrete counts n _ hmap2 hdata2]
      rw [manageInner_idx, hlen]
      have e0 : s.idx + 3 + 3 * n = s.idx + 3 * (n + 1) := by ring
      rw [e0]

theorem applyTransition_eq (l : TrafficLight) (t : Transition) (ts : Nat)
    (log : List TrafficEvent) :
    applyTransition l t ts log =
      ({ l with state := t.targetState },
       log ++ [{ intersection := l.name
                 state := t.targetState
                 timestamp := ts
                 vehicle_count := l.vehicle_count_history.length }]) := by
  cases t <;> rfl

theorem applyTransitions_log_length :
    ∀ (txs : List (Transition × Nat)) (l : TrafficLight)
      (log : List TrafficEvent),
      (applyTransitions l log txs).2.length = log.length + txs.length
  | [], l, log => rfl
  | (t, ts) :: rest, l, log => by
      simp only [applyTransitions]
      rw [applyTransitions_log_length rest, applyTransition_eq]
      simp
      omega

theorem sensorsLoop_counts (clock draws : Nat → Nat) :
    ∀ (k c : Nat) (sys : TrafficSystem),
      (TrafficSystem.sensorsLoop clock draws sys c k).network_timestamps.length
          = sys.network_timestamps.length + k ∧
        (TrafficSystem.sensorsLoop clock draws sys c
              k).network_vehicle_counts.length
          = sys.network_vehicle_counts.length + 3 * k ∧
        (TrafficSystem.sensorsLoop clock draws sys c k).sends
          = sys.sends + 3 * k
  | 0, c, sys => by simp [TrafficSystem.sensorsLoop]
  | k + 1, c, sys => by
      simp only [TrafficSystem.sensorsLoop]
      rcases sensorsLoop_counts clock draws k (c + 1)
        (sys.sensorCycle (clock c) (draws (3 * c)) (draws (3 * c + 1))
          (draws (3 * c + 2))) with ⟨h1, h2, h3⟩
      rw [h1, h2, h3]
      simp [TrafficSystem.sensorCycle, Sensor.generate_sensor_data]
      omega

/-! ### The claims -/

/-- Claim C1: for every vehicle count `v` evaluated by the controller's
decision policy (one pass of the `manage_traffic` loop body), the resulting
state is determined by `v` alone — `v > 60` yields GREEN, `v = 0` yields
RED, and otherwise (`0 < v ≤ 60`) YELLOW — regardless of the light's prior
state, the timestamp, or the log. -/
theorem claim1_decision_policy (tl : TrafficLight) (v ts : Nat)
    (log : List TrafficEvent) :
    (manage_step tl v ts log).1.state =
      (if v > 60 then LightState.GREEN
       else if v = 0 then LightState.RED
       else LightState.YELLOW) := by
  rw [manage_step_eq]
  rfl

/-- Claim C2: `manage_traffic` on the default controller (10 iterations,
3 intersections) performs exactly 30 decision evaluations, for every draw
stream, and returns `intersection_data` with exactly the 3 intersection
keys, each mapped to the last vehicle count evaluated for that intersection
(the draws of the final iteration, indices 27, 28, 29). -/
theorem claim2_default_run (counts : Nat → Nat) :
    (TrafficController.init.manage_traffic counts).idx = 30 ∧
    (TrafficController.init.manage_traffic counts).data =
      [("Intersection 1", counts 27), ("Intersection 2", counts 28),
       ("Intersection 3", counts 29)] ∧
    (TrafficController.init.manage_traffic counts).data.length = 3 := by
  have hdata : (TrafficController.init.manage_traffic counts).data =
      [("Intersection 1", counts 27), ("Intersection 2", counts 28),
       ("Intersection 3", counts 29)] := by
    unfold TrafficController.manage_traffic
    have h10 : TrafficController.init.iterations = 9 + 1 := rfl
    rw [h10, manageLoop_data_concrete counts 9
      ⟨TrafficController.init.intersections, 0, [], []⟩
      (by simp [TrafficController.init]) (Or.inl rfl)]
  refine ⟨?_, hdata, by rw [hdata]; rfl⟩
  have h := manage_traffic_idx TrafficController.init counts
  simpa [TrafficController.init] using h

/-- Claim C3: each `switch_to_*` transition appends exactly one log record,
carrying the light's name, the new state, the given timestamp, and a
`vehicle_count` equal to the current length of the light's observation
history (a count of observations, not a vehicle sum); hence any sequence of
N transitions on a light appends exactly N records. -/
theorem claim3_transition_log (l : TrafficLight) (t : Transition) (ts : Nat)
    (log : List TrafficEvent) (txs : List (Transition × Nat)) :
    (applyTransition l t ts log).2 =
      log ++ [{ intersection := l.name
                state := t.targetState
                timestamp := ts
                vehicle_count := l.vehicle_count_history.length }] ∧
    (applyTransitions l log txs).2.length = log.length + txs.length := by
  constructor
  · rw [applyTransition_eq]
  · exact applyTransitions_log_length txs l log

/-- Claim C4, counterexample: a successfully decoded record does NOT trigger
one policy evaluation per intersection (which would be 3 for the server's
controller); it triggers a full `manage_traffic` run, i.e. 30 evaluations. -/
theorem claim4_counterexample :
    (serverIter (fun _ => 0) (initLoopState TrafficController.init)
        (ServerEvent.conn (ConnData.ok ⟨"Intersection 1", 0⟩))).2.evalsThisIter
      = 30 ∧
    ¬ ((serverIter (fun _ => 0) (initLoopState TrafficController.init)
          (ServerEvent.conn
            (ConnData.ok ⟨"Intersection 1", 0⟩))).2.evalsThisIter
        = (initLoopState
            TrafficController.init).controller.intersections.length) := by
  decide

/-- Claim C4, amended: for every connection whose record decodes
successfully the receiver triggers exactly one `manage_traffic` invocation —
`iterations` policy evaluations per intersection (30 in the default
configuration), not one — and then closes the connection and continues; on
decode failure or connection error it logs the error, runs no decision
cycle, closes the connection, and continues looping. -/
theorem claim4_amended (draws : Nat → Nat) (st : ServerLoopState)
    (rec : TelemetryRecord) (d : ConnData)
    (hd : d = ConnData.recvError ∨ d = ConnData.malformed) :
    ((serverIter draws st
        (ServerEvent.conn (ConnData.ok rec))).2.cyclesThisIter = 1 ∧
     (serverIter draws st
        (ServerEvent.conn (ConnData.ok rec))).2.evalsThisIter =
       st.controller.iterations * st.controller.intersections.length ∧
     (serverIter draws st
        (ServerEvent.conn (ConnData.ok rec))).2.connClosed = true ∧
     (serverIter draws st
        (ServerEvent.conn (ConnData.ok rec))).2.continues = true) ∧
    ((serverIter draws st (ServerEvent.conn d)).2.errorLogged = true ∧
     (serverIter draws st (ServerEvent.conn d)).2.cyclesThisIter = 0 ∧
     (serverIter draws st (ServerEvent.conn d)).2.connClosed = true ∧
     (serverIter draws st (ServerEvent.conn d)).2.continues = true) := by
  constructor
  · refine ⟨rfl, ?_, rfl, rfl⟩
    simp [serverIter, manage_traffic_idx]
  · rcases hd with rfl | rfl <;> exact ⟨rfl, rfl, rfl, rfl⟩

/-- Witness for the amended claim C4 at a concrete state and event. -/
theorem claim4_witness :
    (ConnData.recvError = ConnData.recvError ∨
      ConnData.recvError = ConnData.malformed) ∧
    (((serverIter (fun _ => 0) (initLoopState TrafficController.init)
        (ServerEvent.conn
          (ConnData.ok ⟨"Intersection 2", 3⟩))).2.cyclesThisIter = 1 ∧
      (serverIter (fun _ => 0) (initLoopState TrafficController.init)
        (ServerEvent.conn
          (ConnData.ok ⟨"Intersection 2", 3⟩))).2.evalsThisIter =
        (initLoopState TrafficController.init).controller.iterations *
          (initLoopState
            TrafficController.init).controller.intersections.length ∧
      (serverIter (fun _ => 0) (initLoopState TrafficController.init)
        (ServerEvent.conn
          (ConnData.ok ⟨"Intersection 2", 3⟩))).2.connClosed = true ∧
      (serverIter (fun _ => 0) (initLoopState TrafficController.init)
        (ServerEvent.conn
          (ConnData.ok ⟨"Intersection 2", 3⟩))).2.continues = true) ∧
     ((serverIter (fun _ => 0) (initLoopState TrafficController.init)
        (ServerEvent.conn ConnData.recvError)).2.errorLogged = true ∧
      (serverIter (fun _ => 0) (initLoopState TrafficController.init)
        (ServerEvent.conn ConnData.recvError)).2.cyclesThisIter = 0 ∧
      (serverIter (fun _ => 0) (initLoopState TrafficController.init)
        (ServerEvent.conn ConnData.recvError)).2.connClosed = true ∧
      (serverIter (fun _ => 0) (initLoopState TrafficController.init)
        (ServerEvent.conn ConnData.recvError)).2.continues = true)) :=
  ⟨Or.inl rfl,
   claim4_amended (fun _ => 0) (initLoopState TrafficController.init)
     ⟨"Intersection 2", 3⟩ ConnData.recvError (Or.inl rfl)⟩

/-- Claim C5 names a real bug: on the accept-timeout path of the very first
receiver-loop iteration, `client_socket` has never been assigned, so the
`finally` block's `client_socket.close()` raises `NameError`, which escapes
the loop and kills the receiver thread instead of continuing to the next
iteration. This theorem evaluates the embedding at that failing input: the
iteration does not continue, the loop state is marked crashed, and a
subsequent pending connection is never processed. -/
theorem claim5_timeout_crash :
    (serverIter (fun _ => 0) (initLoopState TrafficController.init)
        ServerEvent.timeout).2.continues = false ∧
    (serverIter (fun _ => 0) (initLoopState TrafficController.init)
        ServerEvent.timeout).1.crashed = true ∧
    (serverLoop (fun _ => 0) (initLoopState TrafficController.init)
        [ServerEvent.timeout, ServerEvent.conn ConnData.empty]).crashed
      = true ∧
    (serverLoop (fun _ => 0) (initLoopState TrafficController.init)
        [ServerEvent.timeout, ServerEvent.conn ConnData.empty]).cycles
      = 0 := by
  decide

/-- Claim C6, counterexample: `generate_sensor_data` is not side-effect
free — it stores the draw in `self.vehicle_count`, so a sensor whose stored
count is 0 is observably changed by a call that draws 5. -/
theorem claim6_counterexample :
    ¬ (((Sensor.init "Intersection 1").generate_sensor_data 5).1 =
        Sensor.init "Intersection 1") := by
  decide

/-- Claim C6, amended: `generate_sensor_data` returns a record carrying the
sensor's intersection id and the drawn count (in `[0, MAX_VEHICLES]`, the
`randint` range), and its one side effect is storing that draw in the
sensor's `vehicle_count` field. -/
theorem claim6_amended (s : Sensor) (draw : Nat) (h : draw ≤ MAX_VEHICLES) :
    (s.generate_sensor_data draw).2.intersection = s.intersection_name ∧
    (s.generate_sensor_data draw).2.vehicle_count = draw ∧
    (s.generate_sensor_data draw).2.vehicle_count ≤ MAX_VEHICLES ∧
    (s.generate_sensor_data draw).1 = { s with vehicle_count := draw } :=
  ⟨rfl, rfl, h, rfl⟩

/-- Witness for the amended claim C6 at a concrete sensor and draw. -/
theorem claim6_witness :
    (3 ≤ MAX_VEHICLES) ∧
    (((Sensor.init "Intersection 2").generate_sensor_data 3).2.intersection =
        (Sensor.init "Intersection 2").intersection_name ∧
     ((Sensor.init "Intersection 2").generate_sensor_data 3).2.vehicle_count
        = 3 ∧
     ((Sensor.init "Intersection 2").generate_sensor_data 3).2.vehicle_count
        ≤ MAX_VEHICLES ∧
     ((Sensor.init "Intersection 2").generate_sensor_data 3).1 =
       { Sensor.init "Intersection 2" with vehicle_count := 3 }) :=
  ⟨by decide, claim6_amended (Sensor.init "Intersection 2") 3 (by decide)⟩

/-- Claim C7, counterexample: one producer cycle appends ONE timestamp but
THREE vehicle counts (one per sensor), so already after a single cycle the
number of recorded timestamps (1) differs from the number of recorded
vehicle counts (3). -/
theorem claim7_counterexample :
    ¬ ((TrafficSystem.init.start_sensors (fun _ => 0) (fun _ => 0)
          1).network_timestamps.length =
        (TrafficSystem.init.start_sensors (fun _ => 0) (fun _ => 0)
          1).network_vehicle_counts.length) := by
  decide

/-- Claim C7, amended: each producer cycle performs three telemetry sends
and appends one timestamp and three vehicle counts to `network_traffic`, so
after k cycles the producer has made 3k sends, recorded k timestamps and 3k
vehicle counts — one (timestamp, count) pair per cycle-and-sensor is NOT
recorded; timestamps are per cycle, counts per send. -/
theorem claim7_amended (sys : TrafficSystem) (clock draws : Nat → Nat)
    (k : Nat) :
    (sys.start_sensors clock draws k).network_timestamps.length =
      sys.network_timestamps.length + k ∧
    (sys.start_sensors clock draws k).network_vehicle_counts.length =
      sys.network_vehicle_counts.length + 3 * k ∧
    (sys.start_sensors clock draws k).sends = sys.sends + 3 * k :=
  sensorsLoop_counts clock draws k 0 sys

/-- Claim C8: if binding the listener socket fails, `start_server` returns
(the receiver terminates without raising, having run zero loop iterations
and zero decision cycles), and neither the producer's final state nor the
direct decision loop's result differs from a run where the bind succeeds. -/
theorem claim8_bind_failure_isolated (events : List ServerEvent)
    (cycles : Nat) (clock sensorDraws serverDraws mainDraws : Nat → Nat) :
    (run_traffic_system false events cycles clock sensorDraws serverDraws
        mainDraws).bindFailed = true ∧
    (run_traffic_system false events cycles clock sensorDraws serverDraws
        mainDraws).serverState.crashed = false ∧
    (run_traffic_system false events cycles clock sensorDraws serverDraws
        mainDraws).serverState.evals = 0 ∧
    (run_traffic_system false events cycles clock sensorDraws serverDraws
        mainDraws).serverState.cycles = 0 ∧
    (run_traffic_system false events cycles clock sensorDraws serverDraws
        mainDraws).system =
      (run_traffic_system true events cycles clock sensorDraws serverDraws
        mainDraws).system ∧
    (run_traffic_system false events cycles clock sensorDraws serverDraws
        mainDraws).main =
      (run_traffic_system true events cycles clock sensorDraws serverDraws
        mainDraws).main :=
  ⟨rfl, rfl, rfl, rfl, rfl, rfl⟩

/-- Claim C9: since every draw evaluated by `manage_traffic` lies in
`[0, MAX_VEHICLES]` with `MAX_VEHICLES = 5` and the GREEN branch needs a
count above 60, GREEN is unreachable: every light starts RED, every final
light state is RED or YELLOW, and every transition logged is to RED or
YELLOW. -/
theorem claim9_green_unreachable (counts : Nat → Nat)
    (h : ∀ i, counts i ≤ MAX_VEHICLES) :
    (∀ p ∈ TrafficController.init.intersections,
        p.2.state = LightState.RED) ∧
    (∀ p ∈ (TrafficController.init.manage_traffic counts).lights,
        p.2.state = LightState.RED ∨ p.2.state = LightState.YELLOW) ∧
    (∀ e ∈ (TrafficController.init.manage_traffic counts).log,
        e.state = LightState.RED ∨ e.state = LightState.YELLOW) := by
  have hdec : ∀ i, decideState (counts i) = LightState.RED ∨
      decideState (counts i) = LightState.YELLOW := by
    intro i
    refine decideState_of_le (counts i) ?_
    have := h i
    unfold MAX_VEHICLES at this
    omega
  have hinit : ∀ p ∈ TrafficController.init.intersections,
      p.2.state = LightState.RED := by decide
  have hmain := manageLoop_pred counts
    (fun st => st = LightState.RED ∨ st = LightState.YELLOW) hdec
    TrafficController.init.iterations
    ⟨TrafficController.init.intersections, 0, [], []⟩
    (by intro p hp; exact Or.inl (hinit p hp))
    (by intro e he; simp at he)
  exact ⟨hinit, hmain.1, hmain.2⟩

/-- Witness for claim C9 at the constant-zero draw stream. -/
theorem claim9_witness :
    (∀ i : Nat, (fun _ : Nat => 0) i ≤ MAX_VEHICLES) ∧
    ((∀ p ∈ TrafficController.init.intersections,
        p.2.state = LightState.RED) ∧
     (∀ p ∈ (TrafficController.init.manage_traffic
          (fun _ : Nat => 0)).lights,
        p.2.state = LightState.RED ∨ p.2.state = LightState.YELLOW) ∧
     (∀ e ∈ (TrafficController.init.manage_traffic
          (fun _ : Nat => 0)).log,
        e.state = LightState.RED ∨ e.state = LightState.YELLOW)) :=
  ⟨fun _ => Nat.zero_le _,
   claim9_green_unreachable (fun _ => 0) (fun _ => Nat.zero_le _)⟩

/-- Claim C10: the server builds its own controller (its own three lights,
equal in value to a fresh default controller), and the run's producer state
and direct-decision-loop result — including the final reported mapping — are
unchanged under any change of the receiver's inputs (its events and its
draws): receiver-triggered processing never touches the traffic system's
lights. -/
theorem claim10_server_controller_disjoint (bindOk : Bool)
    (events1 events2 : List ServerEvent) (cycles : Nat)
    (clock sensorDraws serverDraws1 serverDraws2 mainDraws : Nat → Nat) :
    Server.init.traffic_controller = TrafficController.init ∧
    (run_traffic_system bindOk events1 cycles clock sensorDraws serverDraws1
        mainDraws).main =
      (run_traffic_system bindOk events2 cycles clock sensorDraws
        serverDraws2 mainDraws).main ∧
    (run_traffic_system bindOk events1 cycles clock sensorDraws serverDraws1
        mainDraws).system =
      (run_traffic_system bindOk events2 cycles clock sensorDraws
        serverDraws2 mainDraws).system :=
  ⟨rfl, rfl, rfl⟩

end TrafficSim
